import Mathlib

/-!
# Verification of the multi-source resolution engine (tk4-downloader)

A shallow embedding of the `TikTokDownloader` class (src/unnamed/part_000)
sufficient to settle the specification claims about:

* the result cache with TTL (`getVideoMetadata` lines 244-255 and 313-319,
  `cleanCache` lines 115-122),
* the retrying transport (`fetchWithRetry` lines 198-236),
* the quality arbiter (`selectBestQuality` lines 512-534),
* per-provider metrics accounting during fan-out
  (`getVideoMetadata` lines 262-300, constructor lines 45-81),
* the statistics operations (`getStats`, `resetStats`, `getDetailedStats`,
  lines 588-626) and the `success`/`error` event handlers (lines 90-109),
* the top-level `downloadVideo` (lines 543-581).

Modelling conventions:

* JavaScript numbers used as integer counters become `Nat`/`Int`; the two
  running means (`averageResponseTime`, `averageSpeed`) become `ℚ` so the
  incremental-mean formula is stated exactly (the claims are about the
  formula's shape, not float rounding).
* `NaN`/`Infinity`-producing divisions become `Option ℚ` (`none` = the
  non-finite sentinel).
* A JavaScript object used as a string-keyed dictionary becomes a function
  `String → Option β` (`none` = key absent, i.e. the lookup yields
  `undefined`).
* Fields that `resetStats` drops from the stats object become `Option`
  fields of `Stats` (`none` = the field is `undefined` on the JS object).
* A code path that throws a `TypeError` (property access on `undefined`)
  is modelled as `none` of an `Option`-valued result.
* Timestamps (`Date.now()`) are `Int` parameters supplied by the caller;
  elapsed durations observed by the engine are `ℚ` parameters.
* `generateCacheKey` is an md5 hex digest of the URL; it is modelled as the
  identity on the reference string (a stable, injective key derivation:
  same reference ⇒ same key, which is all the engine relies on).
* Each fan-out unit's adapter behaviour (succeed with a candidate after
  some elapsed time, resolve to `null`, or reject/time out) is supplied by
  an environment function `env : String → UnitOutcome`.
* `Array.prototype.sort` is stable (ES2019); for a comparator inducing a
  total preorder the stable sorted permutation is unique, so it is
  modelled by Mathlib's stable `List.insertionSort` over
  `sourceCmp a b ≤ 0`.
-/

/-- `qualityTier` of a candidate: the string values `'low' | 'medium' | 'high'`
used by the adapters and by `qualityMap` (line 513). -/
inductive Quality where
  | low
  | medium
  | high
deriving DecidableEq, Repr

/-- `const qualityMap = { high: 3, medium: 2, low: 1 }` (line 513). -/
def qualityMap : Quality → Int
  | .high => 3
  | .medium => 2
  | .low => 1

/-- A `ResolutionCandidate`: the object shape returned by every adapter,
`{ videoUrl, author, desc, quality, source }` (e.g. lines 334-340). -/
structure Candidate where
  videoUrl : String
  author : String
  desc : String
  quality : Quality
  source : String
deriving DecidableEq, Repr

/-- Keys of `this.apis` (lines 45-54), in object-literal order; the
constructor creates one `apiUsage` entry per key (lines 74-81). -/
def apiNames : List String :=
  ["snaptik", "tikwm", "tikmate", "savett", "tikdown", "tiktokapi",
   "dlpanda", "ssstik"]

/-- The names of the seven fan-out units in `apiMethods`
(lines 262-270), in array order. -/
def fanoutNames : List String :=
  ["snaptik", "tikwm", "tikdown", "savett", "ssstik", "dlpanda",
   "webscraping"]

/-- `const sourceOrder = ['snaptik', 'tikwm', 'tikdown', 'savett',
'webscraping']` (line 522). -/
def sourceOrder : List String :=
  ["snaptik", "tikwm", "tikdown", "savett", "webscraping"]

/-- JavaScript `Array.prototype.indexOf`: index of the first occurrence,
`-1` when the element is absent. -/
def jsIndexOf (l : List String) (s : String) : Int :=
  match l.findIdx? (fun x => x = s) with
  | some i => (i : Int)
  | none => -1

/-- The comparator passed to `results.sort` in `selectBestQuality`
(lines 517-524): quality descending, then
`sourceOrder.indexOf(a.source) - sourceOrder.indexOf(b.source)`. -/
def sourceCmp (a b : Candidate) : Int :=
  if qualityMap b.quality ≠ qualityMap a.quality then
    qualityMap b.quality - qualityMap a.quality
  else
    jsIndexOf sourceOrder a.source - jsIndexOf sourceOrder b.source

/-- The sort performed by `results.sort(...)` (line 517): the stable sort
under the comparator, i.e. `a` precedes `b` when `sourceCmp a b ≤ 0`,
ties keeping input order. -/
def sortResults (results : List Candidate) : List Candidate :=
  List.insertionSort (fun a b => sourceCmp a b ≤ 0) results

/-- `selectBestQuality` (lines 512-534): sort, take `results[0]`, and when
`preferredQuality !== 'high'` replace it by
`results.find(r => r.quality === preferredQuality) || selected`.
`none` models the `TypeError` the source throws on an empty input
(`selected` is `undefined` and `selected.source` is evaluated at line 532). -/
def selectBestQuality (preferredQuality : Quality) (results : List Candidate) :
    Option Candidate :=
  let sorted := sortResults results
  match sorted.head? with
  | none => none
  | some top =>
    if preferredQuality ≠ Quality.high then
      some ((sorted.find? (fun r => r.quality = preferredQuality)).getD top)
    else
      some top

example : jsIndexOf sourceOrder "snaptik" = 0 := by decide
example : jsIndexOf sourceOrder "ssstik" = -1 := by decide

/-- One `apiUsage` entry:
`{ calls: 0, successes: 0, failures: 0, averageResponseTime: 0 }`
(lines 75-80). -/
structure ProviderStats where
  calls : Nat
  successes : Nat
  failures : Nat
  averageResponseTime : ℚ
deriving DecidableEq, Repr

/-- An entry of `this.stats.errors`, pushed by the `error` event handler
(lines 91-98): `{ timestamp, error: message, url }`. -/
structure ErrorEntry where
  timestamp : Int
  message : String
  url : String
deriving DecidableEq, Repr

/-- `this.stats` (lines 61-71).  The fields that `resetStats` (lines 600-607)
drops from the object are `Option`-valued: `none` means the property is
`undefined` (for `cacheSaves` and `totalSize`, `none` also covers the `NaN`
produced by incrementing `undefined`). -/
structure Stats where
  totalDownloads : Nat
  successfulDownloads : Nat
  failedDownloads : Nat
  averageSpeed : ℚ
  totalSize : Option Nat
  cacheSaves : Option Nat
  apiUsage : Option (String → Option ProviderStats)
  errors : Option (List ErrorEntry)
  startTime : Option Int

/-- The `apiUsage` dictionary built by the constructor (lines 74-81):
one zeroed entry per key of `this.apis` — note the fan-out strategy name
`"webscraping"` is NOT a key of `this.apis`. -/
def initApiUsage : String → Option ProviderStats := fun name =>
  if name ∈ apiNames then some ⟨0, 0, 0, 0⟩ else none

/-- The stats object as the constructor builds it (lines 61-81);
`t` is the construction-time `Date.now()`. -/
def initStats (t : Int) : Stats :=
  { totalDownloads := 0
    successfulDownloads := 0
    failedDownloads := 0
    averageSpeed := 0
    totalSize := some 0
    cacheSaves := some 0
    apiUsage := some initApiUsage
    errors := some []
    startTime := some t }

/-- `resetStats` (lines 600-607): assigns a fresh object holding ONLY the
four download counters; `totalSize`, `cacheSaves`, `apiUsage`, `errors` and
`startTime` are no longer present on the new object. -/
def resetStats (_ : Stats) : Stats :=
  { totalDownloads := 0
    successfulDownloads := 0
    failedDownloads := 0
    averageSpeed := 0
    totalSize := none
    cacheSaves := none
    apiUsage := none
    errors := none
    startTime := none }

/-- Point update of a string-keyed dictionary (JS property assignment). -/
def updateFn (u : String → Option ProviderStats) (k : String)
    (v : ProviderStats) : String → Option ProviderStats :=
  fun n => if n = k then some v else u n

/-- The behaviour of one fan-out unit's adapter call
(`Promise.race([fn(), timeout])`, lines 277-282), chosen by the
environment: the race fulfills with a candidate after `duration` ms,
fulfills with a falsy value (`null`/`undefined`, the adapters' "absent"
answer), or rejects (the timeout promise, line 280). -/
inductive UnitOutcome where
  | success (c : Candidate) (duration : ℚ)
  | absent
  | failure
deriving DecidableEq, Repr

/-- How one fan-out unit's promise settles under `Promise.allSettled`:
`none` = rejected, `some none` = fulfilled with `null`,
`some (some c)` = fulfilled with candidate `c`. -/
def SettledResult := Option (Option Candidate)

/-- One fan-out unit: the `async ({ name, fn }) => { ... }` callback mapped
over `apiMethods` (lines 273-299).  Returns the updated `apiUsage`
dictionary (`none` when `this.stats.apiUsage` itself is `undefined`), how
the unit's promise settled, and whether `fn()` was invoked at all.

When `apiUsage[name]` is `undefined` (in particular for
`name = "webscraping"`), `apiUsage[name].calls++` (line 276) throws a
`TypeError` before `fn()` is called; the `catch` block then throws the same
`TypeError` at `apiUsage[name].failures++` (line 295), so the unit's
promise rejects and no counter is touched. -/
def fanoutUnit (usage? : Option (String → Option ProviderStats))
    (name : String) (outcome : UnitOutcome) :
    Option (String → Option ProviderStats) × SettledResult × Bool :=
  match usage? with
  | none => (none, none, false)
  | some u =>
    match u name with
    | none => (some u, none, false)
    | some st =>
      let st1 : ProviderStats := { st with calls := st.calls + 1 }
      match outcome with
      | .success c d =>
        let n : Nat := st1.successes + 1
        let st2 : ProviderStats :=
          { st1 with
            successes := n
            averageResponseTime :=
              (st1.averageResponseTime * ((n : ℚ) - 1) + d) / (n : ℚ) }
        (some (updateFn u name st2), some (some c), true)
      | .absent =>
        (some (updateFn u name st1), some none, true)
      | .failure =>
        (some (updateFn u name { st1 with failures := st1.failures + 1 }),
         some none, true)

/-- `Promise.allSettled(apiMethods.map(...))` followed by the
`successfulResults` filter (lines 272-304): runs every unit, collects the
fulfilled truthy values in unit order, and records which adapters'
`fn()` actually ran.  Each unit touches only its own provider's entry
(all unit names are distinct), so the sequential fold computes the same
final counters as the concurrent interleaving. -/
def runFanout (usage? : Option (String → Option ProviderStats)) :
    List (String × UnitOutcome) →
    Option (String → Option ProviderStats) × List Candidate × List String
  | [] => (usage?, [], [])
  | (name, outcome) :: rest =>
    let (u1, settled, invoked) := fanoutUnit usage? name outcome
    let (u2, cs, inv) := runFanout u1 rest
    (u2,
     (match settled with
      | some (some c) => c :: cs
      | _ => cs),
     (if invoked then name :: inv else inv))

/-- The engine configuration fields the modelled operations read
(constructor lines 18-34); the remaining options only affect the omitted
byte-download and transport layers. -/
structure EngineOptions where
  maxRetries : Nat
  preferredQuality : Quality
  cacheResults : Bool
  maxCacheAge : Int

/-- A cache entry `{ timestamp, data }` as stored at lines 315-318. -/
structure CacheEntry where
  timestamp : Int
  data : Candidate
deriving DecidableEq, Repr

/-- The in-memory cache `this.cache : Map`, keyed by
`generateCacheKey(url)` (modelled as the url itself). -/
def Cache := String → Option CacheEntry

/-- `cleanCache` (lines 115-122), the periodic background sweep: deletes
every entry with `now - value.timestamp > maxCacheAge` (strictly). -/
def cleanCache (maxCacheAge : Int) (now : Int) (cache : Cache) : Cache :=
  fun k =>
    match cache k with
    | some e => if now - e.timestamp > maxCacheAge then none else some e
    | none => none

/-- Everything `getVideoMetadata` leaves behind: its return value
(`none` = it threw, viz. the `All methods failed` error of line 307),
the stats, the cache, and the list of adapters whose `fn()` was invoked. -/
structure ResolveOutcome where
  result : Option Candidate
  stats : Stats
  cache : Cache
  invoked : List String

/-- `Nat`-counter increment under JS semantics when the field may be
`undefined`: `undefined++` yields `NaN` (modelled `none`), not a throw. -/
def incOpt : Option Nat → Option Nat
  | some n => some (n + 1)
  | none => none

/-- `getVideoMetadata` (lines 244-322).  `now` is `Date.now()` at call
time; `env` gives each fan-out unit's outcome.

* Cache check (lines 248-255): a hit requires `cacheResults` to be on,
  the key present, and `now - cached.timestamp < maxCacheAge` (strict);
  a hit bumps `cacheSaves` and returns the stored data with no adapter
  invoked.  An expired entry is left in place (only the sweep evicts).
* Otherwise the seven-unit fan-out runs (the `videoId` computed at
  line 258 is never used afterwards and is omitted).
* `selectBestQuality` is `none` exactly when `successfulResults` is
  empty, which is where the source throws `All methods failed`
  (lines 306-308) — modelled as `result := none`.
* On success with caching enabled the winner is stored under the key
  with `timestamp := now` (lines 314-319).
`cacheLookup` is the hit test of lines 248-255. -/
def cacheLookup (opts : EngineOptions) (cache : Cache) (now : Int)
    (url : String) : Option Candidate :=
  if opts.cacheResults then
    match cache url with
    | some e =>
      if now - e.timestamp < opts.maxCacheAge then some e.data else none
    | none => none
  else none

def getVideoMetadata (opts : EngineOptions) (st : Stats) (cache : Cache)
    (now : Int) (url : String) (env : String → UnitOutcome) :
    ResolveOutcome :=
  match cacheLookup opts cache now url with
  | some data =>
    { result := some data
      stats := { st with cacheSaves := incOpt st.cacheSaves }
      cache := cache
      invoked := [] }
  | none =>
    let units := fanoutNames.map (fun n => (n, env n))
    let (usage', results, invoked) := runFanout st.apiUsage units
    let st' := { st with apiUsage := usage' }
    match selectBestQuality opts.preferredQuality results with
    | none =>
      { result := none, stats := st', cache := cache, invoked := invoked }
    | some best =>
      let cache' : Cache :=
        if opts.cacheResults then
          fun k => if k = url then some ⟨now, best⟩ else cache k
        else cache
      { result := some best, stats := st', cache := cache'
        invoked := invoked }

/-- The `success` event handler (lines 100-108): guarded by
`if (this.stats.apiUsage[api])`.  When `this.stats.apiUsage` itself is
`undefined` (post-`resetStats`) the property access throws — modelled as
`none`.  When the guard passes it increments `successes` AGAIN and folds
the whole-call `duration` into `averageResponseTime`. -/
def successHandler (st : Stats) (api : String) (duration : ℚ) :
    Option Stats :=
  match st.apiUsage with
  | none => none
  | some u =>
    match u api with
    | none => some st
    | some pst =>
      let n : Nat := pst.successes + 1
      some { st with
        apiUsage := some (updateFn u api
          { pst with
            successes := n
            averageResponseTime :=
              (pst.averageResponseTime * ((n : ℚ) - 1) + duration) /
                (n : ℚ) }) }

/-- The `error` event handler (lines 91-98): pushes an entry onto
`this.stats.errors`; when that field is `undefined` (post-`resetStats`)
the push throws — modelled as `none`. -/
def errorHandler (st : Stats) (now : Int) (message url : String) :
    Option Stats :=
  match st.errors with
  | none => none
  | some errs => some { st with errors := some (errs ++ [⟨now, message, url⟩]) }

/-- What `downloadVideo` leaves behind; the whole outcome is `none` when a
`TypeError` escapes an event handler (only possible post-`resetStats`),
and `result := none` when `downloadVideo` re-throws its caught error. -/
structure DownloadOutcome where
  result : Option Candidate
  stats : Stats
  cache : Cache
  invoked : List String

/-- The `catch` block of `downloadVideo` (lines 576-580):
`failedDownloads++`, then `emit('error', ...)` runs `errorHandler`,
then the error is re-thrown (`result := none`). -/
def downloadFailPath (st : Stats) (cache : Cache) (invoked : List String)
    (now : Int) (message url : String) : Option DownloadOutcome :=
  let st1 := { st with failedDownloads := st.failedDownloads + 1 }
  match errorHandler st1 now message url with
  | none => none
  | some st2 =>
    some { result := none, stats := st2, cache := cache, invoked := invoked }

/-- `downloadVideo` (lines 543-581).  `now` is the call-time `Date.now()`
and `D` the whole-call elapsed time `endTime - startTime` (line 557).

Order of effects, as in the source: `totalDownloads++` (line 544);
`getVideoMetadata`; on a metadata value with a truthy `videoUrl`:
`successfulDownloads++`, incremental-mean update of `averageSpeed`
(line 558), then the `success` event handler with `source` and the
whole-call `duration`; on any caught error the fail path above. -/
def downloadVideo (opts : EngineOptions) (st : Stats) (cache : Cache)
    (now : Int) (url : String) (env : String → UnitOutcome) (D : ℚ) :
    Option DownloadOutcome :=
  let st0 := { st with totalDownloads := st.totalDownloads + 1 }
  let m := getVideoMetadata opts st0 cache now url env
  match m.result with
  | none =>
    downloadFailPath m.stats m.cache m.invoked now "All methods failed" url
  | some c =>
    if c.videoUrl = "" then
      downloadFailPath m.stats m.cache m.invoked now
        "Could not get video URL" url
    else
      let st1 :=
        { m.stats with
          successfulDownloads := m.stats.successfulDownloads + 1 }
      let n : Nat := st1.successfulDownloads
      let st2 :=
        { st1 with
          averageSpeed := (st1.averageSpeed * ((n : ℚ) - 1) + D) / (n : ℚ) }
      match successHandler st2 c.source D with
      | none => none
      | some st3 =>
        some { result := some c, stats := st3, cache := m.cache
               invoked := m.invoked }

/-- The final value of `fetchWithRetry`: success, or the thrown
`lastError` (which is the JS literal `null`, i.e. `none`, if the loop body
never ran because `retries = 0`). -/
inductive FetchResult (E R : Type) where
  | ok (r : R)
  | err (e : Option E)
deriving DecidableEq, Repr

/-- The observable trace of one `fetchWithRetry` call: its result, how
many attempts (`await axios(config)`) were made, and the backoff sleeps
performed between attempts, in milliseconds and in order. -/
structure FetchTrace (E R : Type) where
  result : FetchResult E R
  attempts : Nat
  sleeps : List Nat
deriving DecidableEq, Repr

/-- The `for (let i = 0; i < retries; i++)` loop of `fetchWithRetry`
(lines 202-233), with `i` the current index and `remaining = retries - i`
iterations left.  On a failed attempt with `i < retries - 1`
(`remaining ≥ 2`) it sleeps `Math.pow(2, i) * 1000` ms (line 229) and
continues; after the last failed attempt the loop exits and `lastError`
is thrown (line 235). -/
def fetchLoop (attempt : Nat → Except String String) (i : Nat) :
    Nat → FetchTrace String String
  | 0 => ⟨.err none, 0, []⟩
  | remaining + 1 =>
    match attempt i with
    | .ok r => ⟨.ok r, 1, []⟩
    | .error e =>
      match remaining with
      | 0 => ⟨.err (some e), 1, []⟩
      | r + 1 =>
        let t := fetchLoop attempt (i + 1) (r + 1)
        ⟨t.result, t.attempts + 1, 2 ^ i * 1000 :: t.sleeps⟩

/-- `fetchWithRetry` (lines 198-236): `retries = this.options.maxRetries`;
`attempt i` is what the `await axios(config)` of the `i`-th iteration
does (the per-attempt user-agent randomization does not affect the retry
control flow). -/
def fetchWithRetry (maxRetries : Nat)
    (attempt : Nat → Except String String) : FetchTrace String String :=
  fetchLoop attempt 0 maxRetries

/-- The object returned by `getStats` (lines 588-594):
`{ ...this.stats, successRate, averageSpeedMs }`.
`successRate = (successfulDownloads / totalDownloads) * 100` is `NaN` or
`Infinity` when `totalDownloads = 0` — modelled as `none`.
`averageSpeedMs = Math.round(averageSpeed)` (round half toward +∞). -/
structure StatsView where
  base : Stats
  successRate : Option ℚ
  averageSpeedMs : Int

/-- JavaScript `Math.round`: `⌊x + 1/2⌋`. -/
def jsRound (x : ℚ) : Int := ⌊x + 1 / 2⌋

/-- `getStats` (lines 588-594); it never throws. -/
def getStats (st : Stats) : StatsView :=
  { base := st
    successRate :=
      if st.totalDownloads = 0 then none
      else some (((st.successfulDownloads : ℚ) / (st.totalDownloads : ℚ)) * 100)
    averageSpeedMs := jsRound st.averageSpeed }

/-- The object returned by `getDetailedStats` (lines 614-626).
`uptime = Date.now() - startTime` is `NaN` when `startTime` is gone
(`none`); `cacheEfficiency = (cacheSaves / totalDownloads) * 100` is
non-finite when `cacheSaves` is `undefined`/`NaN` or `totalDownloads = 0`;
`apiPerformance` is the raw `apiUsage` reference; `lastErrors` is
`errors.slice(-5)`.  `totalSizeFormatted` (`formatBytes`, float string
formatting that never throws) is omitted. -/
structure DetailedStatsView where
  base : Stats
  uptime : Option Int
  successRate : Option ℚ
  averageSpeedMs : Int
  cacheEfficiency : Option ℚ
  apiPerformance : Option (String → Option ProviderStats)
  lastErrors : List ErrorEntry

/-- `getDetailedStats` (lines 614-626).  The one property access that can
throw is `this.stats.errors.slice(-5)` (line 623) when `errors` is
`undefined` after `resetStats` — modelled as `none`. -/
def getDetailedStats (st : Stats) (now : Int) : Option DetailedStatsView :=
  match st.errors with
  | none => none
  | some errs =>
    some
      { base := st
        uptime := st.startTime.map (fun t0 => now - t0)
        successRate :=
          if st.totalDownloads = 0 then none
          else some (((st.successfulDownloads : ℚ) /
            (st.totalDownloads : ℚ)) * 100)
        averageSpeedMs := jsRound st.averageSpeed
        cacheEfficiency :=
          match st.cacheSaves with
          | none => none
          | some saves =>
            if st.totalDownloads = 0 then none
            else some (((saves : ℚ) / (st.totalDownloads : ℚ)) * 100)
        apiPerformance := st.apiUsage
        lastErrors := errs.drop (errs.length - 5) }

/-! ## Helper lemmas -/

/-- Unrolling `fetchLoop` when every remaining attempt fails. -/
theorem fetchLoop_all_fail (attempt : Nat → Except String String)
    (e : Nat → String) :
    ∀ remaining i, 0 < remaining →
      (∀ j, j < remaining → attempt (i + j) = .error (e (i + j))) →
      fetchLoop attempt i remaining =
        ⟨.err (some (e (i + remaining - 1))), remaining,
          (List.range (remaining - 1)).map (fun j => 2 ^ (i + j) * 1000)⟩ := by
  intro remaining
  induction remaining with
  | zero => intro i h; omega
  | succ r ih =>
    intro i _ hfail
    have h0 : attempt i = .error (e i) := by
      simpa using hfail 0 (Nat.succ_pos r)
    cases r with
    | zero =>
      rw [fetchLoop]
      simp [h0]
    | succ r' =>
      have hrec := ih (i + 1) (Nat.succ_pos r') (fun j hj => by
        rw [show i + 1 + j = i + (j + 1) by omega]
        exact hfail (j + 1) (by omega))
      rw [fetchLoop]
      simp only [h0, hrec]
      simp only [FetchTrace.mk.injEq, Nat.add_sub_cancel]
      have hshift : ∀ j : Nat, i + 1 + j = i + (j + 1) := by omega
      refine ⟨by rw [show i + 1 + (r' + 1) - 1 = i + (r' + 1 + 1) - 1 by omega],
        trivial, ?_⟩
      rw [List.range_succ_eq_map]
      simp [List.map_map, Function.comp, hshift]

/-! ## C5 — retry policy of `fetchWithRetry` -/

/-- C5: for every request whose every attempt fails, `fetchWithRetry`
configured with `maxRetries = k` makes exactly `k` attempts, sleeps
`2^i` seconds (`2^i * 1000` ms) between attempt `i` and attempt `i+1`
(0-indexed, no sleep after the final attempt), and then fails with exactly
the last attempt's error — earlier attempts' errors are not aggregated. -/
theorem fetchWithRetry_all_fail (k : Nat) (attempt : Nat → Except String String)
    (e : Nat → String) (hk : 0 < k)
    (hfail : ∀ i, i < k → attempt i = .error (e i)) :
    fetchWithRetry k attempt =
      ⟨.err (some (e (k - 1))), k,
        (List.range (k - 1)).map (fun i => 2 ^ i * 1000)⟩ := by
  have := fetchLoop_all_fail attempt e k 0 hk (fun j hj => by
    simpa using hfail j hj)
  simpa [fetchWithRetry] using this

/-- C5 witness: with `maxRetries = 3` and an always-failing call,
exactly 3 attempts are made, the backoff sleeps are 1000 ms then 2000 ms,
and the surfaced error is the third attempt's error. -/
theorem fetchWithRetry_all_fail_witness :
    0 < 3 ∧
    (∀ i, i < 3 → (fun i => (Except.error (toString i) : Except String String)) i
      = .error (toString i)) ∧
    fetchWithRetry 3 (fun i => (Except.error (toString i) : Except String String))
      = ⟨.err (some "2"), 3, [1000, 2000]⟩ := by
  refine ⟨by decide, fun i _ => rfl, ?_⟩
  rw [fetchWithRetry_all_fail 3 _ toString (by decide) (fun i _ => rfl)]
  decide

/-! ## C2 and C6 — the quality arbiter -/

/-- A high-tier candidate from `snaptik` (a provider listed in
`sourceOrder`, at index 0). -/
def snapCand : Candidate := ⟨"https://v/1", "a1", "d1", .high, "snaptik"⟩

/-- A high-tier candidate from `ssstik` (an adapter whose name is NOT in
`sourceOrder`, so `indexOf` yields `-1`). -/
def sssCand : Candidate := ⟨"https://v/2", "a2", "d2", .high, "ssstik"⟩

/-- A medium-tier candidate from the `webscraping` fallback. -/
def webCand : Candidate := ⟨"https://v/3", "a3", "d3", .medium, "webscraping"⟩

theorem jsIndexOf_nonneg_of_mem {l : List String} {s : String}
    (h : s ∈ l) : 0 ≤ jsIndexOf l s := by
  unfold jsIndexOf
  cases hf : l.findIdx? (fun x => x = s) with
  | some i => simp
  | none =>
    exfalso
    rw [List.findIdx?_eq_none_iff] at hf
    have := hf s h
    simp at this

theorem jsIndexOf_eq_neg_one_of_not_mem {l : List String} {s : String}
    (h : s ∉ l) : jsIndexOf l s = -1 := by
  have hf : l.findIdx? (fun x => x = s) = none := by
    rw [List.findIdx?_eq_none_iff]
    intro x hx
    rw [decide_eq_false_iff_not]
    intro hxs
    exact absurd (hxs ▸ hx) h
  unfold jsIndexOf
  rw [hf]

/-- C2 counterexample: over the equal-tier pair `[snaptik, ssstik]` the
code ranks the UNLISTED provider `ssstik` first (its `indexOf` is `-1`,
smaller than every listed index), so the listed provider `snaptik` is not
ranked earlier, contradicting the claim. -/
theorem listed_provider_not_ranked_earlier :
    snapCand.quality = sssCand.quality ∧
    snapCand.source ∈ sourceOrder ∧
    sssCand.source ∉ sourceOrder ∧
    sortResults [snapCand, sssCand] = [sssCand, snapCand] ∧
    selectBestQuality .high [snapCand, sssCand] = some sssCand := by
  refine ⟨rfl, by decide, by decide, by decide, by decide⟩

/-- C2 amended: in `selectBestQuality`, for every pair of equal-tier
candidates where `a`'s provider is in `sourceOrder` and `b`'s is not, the
UNLISTED provider sorts strictly earlier (JS `indexOf` returns `-1` for
the unlisted name and the comparator subtracts indexes), so providers not
present in the list sort before all listed ones. -/
theorem unlisted_provider_ranked_earlier (a b : Candidate)
    (hq : a.quality = b.quality)
    (ha : a.source ∈ sourceOrder) (hb : b.source ∉ sourceOrder) :
    0 < sourceCmp a b ∧ sourceCmp b a < 0 ∧
    sortResults [a, b] = [b, a] ∧ sortResults [b, a] = [b, a] ∧
    selectBestQuality .high [a, b] = some b ∧
    selectBestQuality .high [b, a] = some b := by
  have hia := jsIndexOf_nonneg_of_mem ha
  have hib := jsIndexOf_eq_neg_one_of_not_mem hb
  have hab : 0 < sourceCmp a b := by
    unfold sourceCmp
    rw [hq, hib]
    simp
    omega
  have hba : sourceCmp b a < 0 := by
    unfold sourceCmp
    rw [hq, hib]
    simp
    omega
  have hle1 : ¬ (sourceCmp a b ≤ 0) := by omega
  have hle2 : sourceCmp b a ≤ 0 := by omega
  have hs1 : sortResults [a, b] = [b, a] := by
    simp [sortResults, List.insertionSort, List.orderedInsert, hle1]
  have hs2 : sortResults [b, a] = [b, a] := by
    simp [sortResults, List.insertionSort, List.orderedInsert, hle2]
  refine ⟨hab, hba, hs1, hs2, ?_, ?_⟩ <;>
    simp [selectBestQuality, hs1, hs2]

/-- C2 amended witness: the concrete pair (`snaptik` listed, `ssstik`
unlisted, both high tier) instantiating the amended theorem. -/
theorem unlisted_provider_ranked_earlier_witness :
    snapCand.quality = sssCand.quality ∧
    snapCand.source ∈ sourceOrder ∧ sssCand.source ∉ sourceOrder ∧
    (0 < sourceCmp snapCand sssCand ∧ sourceCmp sssCand snapCand < 0 ∧
     sortResults [snapCand, sssCand] = [sssCand, snapCand] ∧
     sortResults [sssCand, snapCand] = [sssCand, snapCand] ∧
     selectBestQuality .high [snapCand, sssCand] = some sssCand ∧
     selectBestQuality .high [sssCand, snapCand] = some sssCand) :=
  ⟨rfl, by decide, by decide,
    unlisted_provider_ranked_earlier snapCand sssCand rfl (by decide) (by decide)⟩

/-- C6: for every non-empty candidate list and every `preferredQuality`,
`selectBestQuality` returns the first candidate of the sorted order whose
tier exactly equals `preferredQuality` when that is not `high`, falling
back to the top of the sort when none matches; over a set with no
`medium` candidate, preferring `medium` returns the same winner as
preferring `high`, and preferring `low` over a set with no `low`
candidate also returns the `high`-preference winner rather than failing. -/
theorem selectBestQuality_soft_preference (pref : Quality)
    (results : List Candidate) (h : results ≠ []) :
    (∃ top, (sortResults results).head? = some top ∧
      selectBestQuality pref results =
        some (if pref = Quality.high then top
          else ((sortResults results).find?
            (fun r => r.quality = pref)).getD top)) ∧
    ((∀ r ∈ results, r.quality ≠ Quality.medium) →
      selectBestQuality Quality.medium results =
        selectBestQuality Quality.high results) ∧
    ((∀ r ∈ results, r.quality ≠ Quality.low) →
      selectBestQuality Quality.low results =
        selectBestQuality Quality.high results) ∧
    (selectBestQuality pref results).isSome := by
  have hperm : (sortResults results).Perm results :=
    List.perm_insertionSort _ _
  obtain ⟨top, rest, hcons⟩ : ∃ top rest, sortResults results = top :: rest := by
    cases hs : sortResults results with
    | nil =>
      exfalso
      apply h
      have := hperm.length_eq
      rw [hs] at this
      exact List.length_eq_zero.mp this.symm
    | cons t r => exact ⟨t, r, rfl⟩
  have hnone : ∀ q : Quality, (∀ r ∈ results, r.quality ≠ q) →
      (sortResults results).find? (fun r => r.quality = q) = none := by
    intro q hq
    rw [List.find?_eq_none]
    intro x hx
    simp only [decide_eq_true_eq]
    exact hq x (hperm.mem_iff.mp hx)
  refine ⟨⟨top, ?_, ?_⟩, ?_, ?_, ?_⟩
  · rw [hcons]; rfl
  · cases hpref : pref == Quality.high with
    | true =>
      have : pref = Quality.high := by
        cases pref <;> simp_all
      subst this
      simp [selectBestQuality, hcons]
    | false =>
      have hne : pref ≠ Quality.high := by
        cases pref <;> simp_all
      simp [selectBestQuality, hcons, hne]
  · intro hmed
    have hfind := hnone Quality.medium hmed
    rw [hcons] at hfind
    simp [selectBestQuality, hcons, hfind]
  · intro hlow
    have hfind := hnone Quality.low hlow
    rw [hcons] at hfind
    simp [selectBestQuality, hcons, hfind]
  · cases hpref : pref == Quality.high with
    | true =>
      have : pref = Quality.high := by cases pref <;> simp_all
      subst this
      simp [selectBestQuality, hcons]
    | false =>
      have hne : pref ≠ Quality.high := by cases pref <;> simp_all
      simp [selectBestQuality, hcons, hne]

/-- C6 witness: over `[snaptik high, ssstik high]` (no `medium`, no `low`
candidate), preferring `medium` or `low` returns the `high`-preference
winner, and the call does not fail. -/
theorem selectBestQuality_soft_preference_witness :
    ([snapCand, sssCand] ≠ ([] : List Candidate)) ∧
    ((∃ top, (sortResults [snapCand, sssCand]).head? = some top ∧
      selectBestQuality Quality.medium [snapCand, sssCand] =
        some (if Quality.medium = Quality.high then top
          else ((sortResults [snapCand, sssCand]).find?
            (fun r => r.quality = Quality.medium)).getD top)) ∧
    ((∀ r ∈ [snapCand, sssCand], r.quality ≠ Quality.medium) →
      selectBestQuality Quality.medium [snapCand, sssCand] =
        selectBestQuality Quality.high [snapCand, sssCand]) ∧
    ((∀ r ∈ [snapCand, sssCand], r.quality ≠ Quality.low) →
      selectBestQuality Quality.low [snapCand, sssCand] =
        selectBestQuality Quality.high [snapCand, sssCand]) ∧
    (selectBestQuality Quality.medium [snapCand, sssCand]).isSome) :=
  ⟨by decide, selectBestQuality_soft_preference Quality.medium
    [snapCand, sssCand] (by decide)⟩

/-! ## C3 and C4 — per-provider metrics accounting -/

/-- C3: the claim fails on the code.  `"webscraping"` is one of the seven
fan-out strategy names but is NOT a key of `this.apis`, so the constructor
creates no `apiUsage` entry for it; its fan-out unit then faults
(`apiUsage['webscraping'].calls++` throws a `TypeError`) before ever
invoking the scraper: the unit's promise rejects, no call/success/failure
counter is touched, and the `webscraping` strategy is NOT accounted like
the other providers.  This theorem evaluates the code at that failing
input, for every possible outcome the scraper would have produced. -/
theorem webscraping_unit_faults :
    initApiUsage "webscraping" = none ∧
    "webscraping" ∈ fanoutNames ∧
    (∀ outcome : UnitOutcome,
      fanoutUnit (some initApiUsage) "webscraping" outcome =
        (some initApiUsage, none, false)) := by
  refine ⟨by decide, by decide, fun outcome => ?_⟩
  cases outcome <;> rfl

/-- C4 counterexample: a fan-out unit that ends in explicit absence (the
adapter fulfilled with `null`) increments the call counter but NOT the
failure counter — after an `absent` outcome for `snaptik` on the fresh
registry the entry reads `{calls 1, successes 0, failures 0}`, whereas the
claim demands `failures = 1`. -/
theorem absence_does_not_increment_failures :
    ((fanoutUnit (some initApiUsage) "snaptik" .absent).1.bind
      (fun u => u "snaptik")) = some ⟨1, 0, 0, 0⟩ ∧
    ¬ ∃ pst : ProviderStats,
      ((fanoutUnit (some initApiUsage) "snaptik" .absent).1.bind
        (fun u => u "snaptik")) = some pst ∧ pst.failures = 1 := by
  constructor
  · simp [fanoutUnit, initApiUsage, updateFn, apiNames]
  · rintro ⟨pst, hpst, hf⟩
    simp [fanoutUnit, initApiUsage, updateFn, apiNames] at hpst
    rw [← hpst] at hf
    simp at hf

/-- C4 amended: for every fan-out unit whose provider name HAS a registered
metrics entry, the call count increments on every unit regardless of
outcome; the success count increments only when the unit yields a concrete
candidate; the failure count increments only when the unit ends in error or
timeout — an explicit absence (null result) increments neither success nor
failure; the running mean response time is updated only on success using
`mean' = (mean*(n-1) + newSample)/n` with `n` the post-increment success
count; and the update touches no other provider's entry.  (The
`webscraping` unit has no registered entry and records nothing at all, so
counter totals range over the six registered fan-out adapters only.) -/
theorem fanoutUnit_accounting (u : String → Option ProviderStats)
    (name : String) (pst : ProviderStats) (outcome : UnitOutcome)
    (hn : u name = some pst) :
    (fanoutUnit (some u) name outcome).2.2 = true ∧
    (∀ m, m ≠ name →
      ((fanoutUnit (some u) name outcome).1.bind (fun u' => u' m)) = u m) ∧
    (∀ c d, outcome = .success c d →
      ((fanoutUnit (some u) name outcome).1.bind (fun u' => u' name)) =
        some ⟨pst.calls + 1, pst.successes + 1, pst.failures,
          (pst.averageResponseTime * ((pst.successes + 1 : ℚ) - 1) + d) /
            (pst.successes + 1 : ℚ)⟩ ∧
      (fanoutUnit (some u) name outcome).2.1 = some (some c)) ∧
    (outcome = .absent →
      ((fanoutUnit (some u) name outcome).1.bind (fun u' => u' name)) =
        some ⟨pst.calls + 1, pst.successes, pst.failures,
          pst.averageResponseTime⟩ ∧
      (fanoutUnit (some u) name outcome).2.1 = some none) ∧
    (outcome = .failure →
      ((fanoutUnit (some u) name outcome).1.bind (fun u' => u' name)) =
        some ⟨pst.calls + 1, pst.successes, pst.failures + 1,
          pst.averageResponseTime⟩ ∧
      (fanoutUnit (some u) name outcome).2.1 = some none) := by
  refine ⟨?_, ?_, ?_, ?_, ?_⟩
  · cases outcome <;> simp [fanoutUnit, hn]
  · intro m hm
    cases outcome <;> simp [fanoutUnit, hn, updateFn, hm]
  · rintro c d rfl
    constructor
    · simp [fanoutUnit, hn, updateFn]
    · simp [fanoutUnit, hn]
  · rintro rfl
    constructor
    · simp [fanoutUnit, hn, updateFn]
    · simp [fanoutUnit, hn]
  · rintro rfl
    constructor
    · simp [fanoutUnit, hn, updateFn]
    · simp [fanoutUnit, hn]

/-- C4 amended witness: the `snaptik` unit on the fresh registry, for a
successful outcome. -/
theorem fanoutUnit_accounting_witness :
    initApiUsage "snaptik" = some ⟨0, 0, 0, 0⟩ ∧
    ((fanoutUnit (some initApiUsage) "snaptik"
        (.success snapCand 10)).2.2 = true ∧
    (∀ m, m ≠ "snaptik" →
      ((fanoutUnit (some initApiUsage) "snaptik"
        (.success snapCand 10)).1.bind (fun u' => u' m)) = initApiUsage m) ∧
    (∀ c d, (UnitOutcome.success snapCand 10) = .success c d →
      ((fanoutUnit (some initApiUsage) "snaptik"
          (.success snapCand 10)).1.bind (fun u' => u' "snaptik")) =
        some ⟨(0 : Nat) + 1, (0 : Nat) + 1, 0,
          ((0 : ℚ) * (((0 : Nat) + 1 : ℚ) - 1) + d) / (((0 : Nat) + 1 : ℚ))⟩ ∧
      (fanoutUnit (some initApiUsage) "snaptik"
        (.success snapCand 10)).2.1 = some (some c)) ∧
    ((UnitOutcome.success snapCand 10) = .absent →
      ((fanoutUnit (some initApiUsage) "snaptik"
          (.success snapCand 10)).1.bind (fun u' => u' "snaptik")) =
        some ⟨(0 : Nat) + 1, 0, 0, 0⟩ ∧
      (fanoutUnit (some initApiUsage) "snaptik"
        (.success snapCand 10)).2.1 = some none) ∧
    ((UnitOutcome.success snapCand 10) = .failure →
      ((fanoutUnit (some initApiUsage) "snaptik"
          (.success snapCand 10)).1.bind (fun u' => u' "snaptik")) =
        some ⟨(0 : Nat) + 1, 0, (0 : Nat) + 1, 0⟩ ∧
      (fanoutUnit (some initApiUsage) "snaptik"
        (.success snapCand 10)).2.1 = some none)) :=
  ⟨by decide,
    fanoutUnit_accounting initApiUsage "snaptik" ⟨0, 0, 0, 0⟩
      (.success snapCand 10) (by decide)⟩

/-! ## Fan-out bookkeeping lemmas -/

/-- Unfolding `runFanout` one unit at a time. -/
theorem runFanout_cons (usage? : Option (String → Option ProviderStats))
    (name : String) (outcome : UnitOutcome)
    (rest : List (String × UnitOutcome)) :
    runFanout usage? ((name, outcome) :: rest) =
      ((runFanout (fanoutUnit usage? name outcome).1 rest).1,
       (match (fanoutUnit usage? name outcome).2.1 with
        | some (some c) =>
          c :: (runFanout (fanoutUnit usage? name outcome).1 rest).2.1
        | _ => (runFanout (fanoutUnit usage? name outcome).1 rest).2.1),
       (if (fanoutUnit usage? name outcome).2.2 then
          name :: (runFanout (fanoutUnit usage? name outcome).1 rest).2.2
        else (runFanout (fanoutUnit usage? name outcome).1 rest).2.2)) := rfl

/-- One fan-out unit never creates or deletes a provider entry: the
domain (presence of each key) of the usage dictionary is invariant. -/
theorem fanoutUnit_someness (u : String → Option ProviderStats)
    (name : String) (outcome : UnitOutcome) :
    ∃ u', (fanoutUnit (some u) name outcome).1 = some u' ∧
      ∀ n, (u' n).isSome = (u n).isSome := by
  cases hn : u name with
  | none =>
    refine ⟨u, ?_, fun n => rfl⟩
    cases outcome <;> simp [fanoutUnit, hn]
  | some pst =>
    cases outcome with
    | success c d =>
      refine ⟨updateFn u name ⟨pst.calls + 1, pst.successes + 1, pst.failures,
        (pst.averageResponseTime * ((pst.successes + 1 : ℚ) - 1) + d) /
          ((pst.successes + 1 : ℚ))⟩, by simp [fanoutUnit, hn], fun n => ?_⟩
      by_cases h : n = name <;> simp [updateFn, h, hn]
    | absent =>
      refine ⟨updateFn u name ⟨pst.calls + 1, pst.successes, pst.failures,
        pst.averageResponseTime⟩, by simp [fanoutUnit, hn], fun n => ?_⟩
      by_cases h : n = name <;> simp [updateFn, h, hn]
    | failure =>
      refine ⟨updateFn u name ⟨pst.calls + 1, pst.successes, pst.failures + 1,
        pst.averageResponseTime⟩, by simp [fanoutUnit, hn], fun n => ?_⟩
      by_cases h : n = name <;> simp [updateFn, h, hn]

/-- A unit invokes its adapter exactly when the provider's entry is
present. -/
theorem fanoutUnit_invoked (u : String → Option ProviderStats)
    (name : String) (outcome : UnitOutcome) :
    (fanoutUnit (some u) name outcome).2.2 = (u name).isSome := by
  cases hn : u name with
  | none => cases outcome <;> simp [fanoutUnit, hn]
  | some pst => cases outcome <;> simp [fanoutUnit, hn]

/-- The list of adapters invoked by the fan-out is determined by which
provider names have entries at fan-out start: entry presence is invariant
across units, so it is the initial dictionary that decides. -/
theorem runFanout_invoked (units : List (String × UnitOutcome)) :
    ∀ u : String → Option ProviderStats,
      (runFanout (some u) units).2.2 =
        (units.filter (fun p => (u p.1).isSome)).map Prod.fst := by
  induction units with
  | nil => intro u; rfl
  | cons p rest ih =>
    intro u
    obtain ⟨name, outcome⟩ := p
    obtain ⟨u1, hu1, hdom⟩ := fanoutUnit_someness u name outcome
    have hinv := fanoutUnit_invoked u name outcome
    rw [runFanout_cons]
    simp only [hu1]
    have hrest : (runFanout (some u1) rest).2.2 =
        (rest.filter (fun p => (u1 p.1).isSome)).map Prod.fst := ih u1
    have hfilter : rest.filter (fun p => (u1 p.1).isSome) =
        rest.filter (fun p => (u p.1).isSome) :=
      List.filter_congr (fun p _ => by rw [hdom p.1])
    cases hbit : (u name).isSome with
    | true =>
      simp only [hinv, hbit, if_true, hrest, hfilter, List.filter_cons,
        hbit, List.map_cons]
    | false =>
      simp only [hinv, hbit, if_false, hrest, hfilter, List.filter_cons,
        hbit]
      simp

/-- A fan-out that invoked no adapter performed no update. -/
theorem runFanout_no_invoke_no_update :
    ∀ (units : List (String × UnitOutcome))
      (usage? : Option (String → Option ProviderStats)),
      (runFanout usage? units).2.2 = [] →
      (runFanout usage? units).1 = usage? := by
  intro units
  induction units with
  | nil => intro usage? _; rfl
  | cons p rest ih =>
    intro usage? hinv
    obtain ⟨name, outcome⟩ := p
    rw [runFanout_cons] at hinv ⊢
    cases usage? with
    | none =>
      have h1 : fanoutUnit none name outcome = (none, none, false) := rfl
      rw [h1] at hinv ⊢
      exact ih none (by simpa using hinv)
    | some u =>
      cases hn : u name with
      | none =>
        have h1 : fanoutUnit (some u) name outcome = (some u, none, false) := by
          cases outcome <;> simp [fanoutUnit, hn]
        rw [h1] at hinv ⊢
        exact ih (some u) (by simpa using hinv)
      | some pst =>
        exfalso
        have hinv2 := fanoutUnit_invoked u name outcome
        rw [hn] at hinv2
        rw [hinv2] at hinv
        simp at hinv

/-! ## C1 — cache TTL semantics of top-level resolution -/

/-- On a cache miss, the fan-out runs and the `snaptik` adapter is invoked
whenever its metrics entry is present. -/
theorem getVideoMetadata_miss_invokes_snaptik (opts : EngineOptions)
    (st : Stats) (cache : Cache) (now : Int) (url : String)
    (env : String → UnitOutcome) (u : String → Option ProviderStats)
    (hu : st.apiUsage = some u) (hsnap : (u "snaptik").isSome)
    (hmiss : cacheLookup opts cache now url = none) :
    "snaptik" ∈ (getVideoMetadata opts st cache now url env).invoked := by
  cases hsel : selectBestQuality opts.preferredQuality
      ((runFanout st.apiUsage (fanoutNames.map (fun n => (n, env n)))).2.1) with
  | none =>
    simp only [getVideoMetadata, hmiss, hsel]
    rw [hu, runFanout_invoked]
    simp only [fanoutNames, List.map_cons, List.filter_cons, hsnap]
    simp
  | some best =>
    simp only [getVideoMetadata, hmiss, hsel]
    rw [hu, runFanout_invoked]
    simp only [fanoutNames, List.map_cons, List.filter_cons, hsnap]
    simp

/-- C1: with caching enabled, a resolution returns the cached
`ResolvedMedia` without invoking any provider adapter if and only if the
cached entry's age `now - createdAt` is strictly less than `maxCacheAge`;
once `maxCacheAge` has elapsed the next resolution invokes the adapters
again — whether or not the background sweep has run; and a successful
resolution always leaves the returned value stored in the cache under the
reference's key (a miss stores it with `createdAt = now`). -/
theorem cache_ttl_resolution (opts : EngineOptions) (st : Stats)
    (cache : Cache) (now : Int) (url : String) (env : String → UnitOutcome)
    (e : CacheEntry)
    (hc : opts.cacheResults = true)
    (he : cache url = some e)
    (hs : (st.apiUsage.bind (fun u => u "snaptik")).isSome) :
    ((now - e.timestamp < opts.maxCacheAge) ↔
      ((getVideoMetadata opts st cache now url env).result = some e.data ∧
       (getVideoMetadata opts st cache now url env).invoked = [])) ∧
    (opts.maxCacheAge ≤ now - e.timestamp →
      "snaptik" ∈ (getVideoMetadata opts st cache now url env).invoked ∧
      "snaptik" ∈ (getVideoMetadata opts st
        (cleanCache opts.maxCacheAge now cache) now url env).invoked) ∧
    (∀ (st1 : Stats) (cache1 : Cache) (t1 : Int)
      (env1 : String → UnitOutcome) (c : Candidate),
      (getVideoMetadata opts st1 cache1 t1 url env1).result = some c →
      ∃ ts, (getVideoMetadata opts st1 cache1 t1 url env1).cache url =
        some ⟨ts, c⟩) := by
  obtain ⟨u, hu⟩ : ∃ u, st.apiUsage = some u := by
    cases hau : st.apiUsage with
    | none => rw [hau] at hs; simp at hs
    | some u => exact ⟨u, rfl⟩
  have hsnap : (u "snaptik").isSome := by
    rw [hu] at hs; simpa using hs
  refine ⟨⟨?_, ?_⟩, ?_, ?_⟩
  · -- fresh entry ⇒ cached hit, no adapter invoked
    intro hlt
    have hhit : cacheLookup opts cache now url = some e.data := by
      simp [cacheLookup, hc, he, hlt]
    simp [getVideoMetadata, hhit]
  · -- hit shape ⇒ entry is fresh
    rintro ⟨_, hinv⟩
    by_contra hge
    have hmiss : cacheLookup opts cache now url = none := by
      simp [cacheLookup, hc, he, hge]
    have := getVideoMetadata_miss_invokes_snaptik opts st cache now url env
      u hu hsnap hmiss
    rw [hinv] at this
    simp at this
  · -- expired entry ⇒ the fan-out runs, swept or not
    intro hge
    have hge' : ¬ (now - e.timestamp < opts.maxCacheAge) := by omega
    have hmiss : cacheLookup opts cache now url = none := by
      simp [cacheLookup, hc, he, hge']
    refine ⟨getVideoMetadata_miss_invokes_snaptik opts st cache now url env
      u hu hsnap hmiss, ?_⟩
    have hmiss2 : cacheLookup opts (cleanCache opts.maxCacheAge now cache)
        now url = none := by
      by_cases hdel : now - e.timestamp > opts.maxCacheAge
      · simp [cacheLookup, cleanCache, hc, he, hdel]
      · simp [cacheLookup, cleanCache, hc, he, hdel, hge']
    exact getVideoMetadata_miss_invokes_snaptik opts st _ now url env
      u hu hsnap hmiss2
  · -- every successful resolution leaves its value stored under the key
    intro st1 cache1 t1 env1 c hres
    cases hl : cacheLookup opts cache1 t1 url with
    | some data =>
      have hdata : data = c := by
        simp only [getVideoMetadata, hl] at hres
        simpa using hres
      have hex : ∃ e', cache1 url = some e' ∧ e'.data = data := by
        have hl' := hl
        simp only [cacheLookup, hc, if_true] at hl'
        cases hcu : cache1 url with
        | none => rw [hcu] at hl'; simp at hl'
        | some e' =>
          rw [hcu] at hl'
          by_cases hfr : t1 - e'.timestamp < opts.maxCacheAge
          · exact ⟨e', rfl, by simpa [hfr] using hl'⟩
          · simp [hfr] at hl'
      obtain ⟨⟨ts', dat'⟩, he', hd⟩ := hex
      refine ⟨ts', ?_⟩
      simp only [getVideoMetadata, hl]
      rw [he']
      simp only [CacheEntry.mk.injEq] at hd ⊢
      simp [hd, hdata]
    | none =>
      cases hsel : selectBestQuality opts.preferredQuality
          ((runFanout st1.apiUsage
            (fanoutNames.map (fun n => (n, env1 n)))).2.1) with
      | none =>
        simp only [getVideoMetadata, hl, hsel] at hres
        simp at hres
      | some best =>
        have hbest : best = c := by
          simp only [getVideoMetadata, hl, hsel] at hres
          simpa using hres
        refine ⟨t1, ?_⟩
        simp only [getVideoMetadata, hl, hsel, hc, if_true]
        simp [hbest]

/-- Demo configuration: defaults (`preferredQuality 'high'`,
`cacheResults true`, `maxCacheAge` one hour in ms). -/
def demoOpts : EngineOptions := ⟨3, .high, true, 3600000⟩

/-- A cache holding one entry, created at time 0, for reference
`"https://r"`. -/
def demoCache : Cache :=
  fun k => if k = "https://r" then some ⟨0, snapCand⟩ else none

/-- An environment where only the `snaptik` adapter produces a candidate
(after 10 ms) and every other unit fails. -/
def demoEnv : String → UnitOutcome :=
  fun n => if n = "snaptik" then .success snapCand 10 else .failure

/-- C1 witness: at time 100 (entry age 100 < one hour) the engine with the
demo cache returns the stored candidate without invoking any adapter,
and the TTL theorem's remaining conclusions hold at this instance. -/
theorem cache_ttl_resolution_witness :
    demoOpts.cacheResults = true ∧
    demoCache "https://r" = some ⟨0, snapCand⟩ ∧
    ((initStats 0).apiUsage.bind (fun u => u "snaptik")).isSome ∧
    ((((100 : Int) - (⟨0, snapCand⟩ : CacheEntry).timestamp <
        demoOpts.maxCacheAge) ↔
      ((getVideoMetadata demoOpts (initStats 0) demoCache 100 "https://r"
          demoEnv).result = some (⟨0, snapCand⟩ : CacheEntry).data ∧
       (getVideoMetadata demoOpts (initStats 0) demoCache 100 "https://r"
          demoEnv).invoked = [])) ∧
    (demoOpts.maxCacheAge ≤ (100 : Int) -
        (⟨0, snapCand⟩ : CacheEntry).timestamp →
      "snaptik" ∈ (getVideoMetadata demoOpts (initStats 0) demoCache 100
        "https://r" demoEnv).invoked ∧
      "snaptik" ∈ (getVideoMetadata demoOpts (initStats 0)
        (cleanCache demoOpts.maxCacheAge 100 demoCache) 100 "https://r"
        demoEnv).invoked) ∧
    (∀ (st1 : Stats) (cache1 : Cache) (t1 : Int)
      (env1 : String → UnitOutcome) (c : Candidate),
      (getVideoMetadata demoOpts st1 cache1 t1 "https://r" env1).result =
        some c →
      ∃ ts, (getVideoMetadata demoOpts st1 cache1 t1 "https://r"
        env1).cache "https://r" = some ⟨ts, c⟩)) :=
  ⟨rfl, by decide, by decide,
    cache_ttl_resolution demoOpts (initStats 0) demoCache 100 "https://r"
      demoEnv ⟨0, snapCand⟩ rfl (by decide) (by decide)⟩

/-! ## C8 — disabling the cache -/

/-- The whole fan-out never creates or deletes provider entries. -/
theorem runFanout_someness (units : List (String × UnitOutcome)) :
    ∀ u : String → Option ProviderStats,
      ∃ u', (runFanout (some u) units).1 = some u' ∧
        ∀ n, (u' n).isSome = (u n).isSome := by
  induction units with
  | nil => intro u; exact ⟨u, rfl, fun n => rfl⟩
  | cons p rest ih =>
    intro u
    obtain ⟨name, outcome⟩ := p
    obtain ⟨u1, hu1, hdom1⟩ := fanoutUnit_someness u name outcome
    obtain ⟨u2, hu2, hdom2⟩ := ih u1
    refine ⟨u2, ?_, fun n => (hdom2 n).trans (hdom1 n)⟩
    rw [runFanout_cons]
    simp only [hu1]
    exact hu2

/-- C8: with `cacheResults: false` the cache lookup always misses and the
store is a no-op (the cache map is returned untouched), and two
consecutive resolutions of the same reference both run the full fan-out —
but each invokes only the six registered adapters: the `webscraping`
adapter is never invoked because its unit faults on the missing metrics
entry first, so "each invoke every adapter" fails for it. -/
theorem cache_disabled_always_misses (opts : EngineOptions) (st : Stats)
    (cache : Cache) (now now2 : Int) (url : String)
    (env env2 : String → UnitOutcome)
    (hc : opts.cacheResults = false)
    (hu : st.apiUsage = some initApiUsage) :
    (getVideoMetadata opts st cache now url env).cache = cache ∧
    (getVideoMetadata opts st cache now url env).invoked =
      ["snaptik", "tikwm", "tikdown", "savett", "ssstik", "dlpanda"] ∧
    "webscraping" ∉ (getVideoMetadata opts st cache now url env).invoked ∧
    (getVideoMetadata opts (getVideoMetadata opts st cache now url env).stats
      (getVideoMetadata opts st cache now url env).cache now2 url
      env2).invoked =
      ["snaptik", "tikwm", "tikdown", "savett", "ssstik", "dlpanda"] := by
  have hmiss : ∀ (cache' : Cache) (t : Int),
      cacheLookup opts cache' t url = none := by
    intro cache' t
    simp [cacheLookup, hc]
  have hinv1 : (getVideoMetadata opts st cache now url env).invoked =
      ["snaptik", "tikwm", "tikdown", "savett", "ssstik", "dlpanda"] := by
    cases hsel : selectBestQuality opts.preferredQuality
        ((runFanout st.apiUsage (fanoutNames.map (fun n => (n, env n)))).2.1) with
    | none =>
      simp only [getVideoMetadata, hmiss, hsel]
      rw [hu, runFanout_invoked]
      simp [fanoutNames, initApiUsage, apiNames]
    | some best =>
      simp only [getVideoMetadata, hmiss, hsel]
      rw [hu, runFanout_invoked]
      simp [fanoutNames, initApiUsage, apiNames]
  have hcache1 : (getVideoMetadata opts st cache now url env).cache = cache := by
    cases hsel : selectBestQuality opts.preferredQuality
        ((runFanout st.apiUsage (fanoutNames.map (fun n => (n, env n)))).2.1) with
    | none => simp only [getVideoMetadata, hmiss, hsel]
    | some best => simp [getVideoMetadata, hmiss, hsel, hc]
  obtain ⟨u1, hu1, hdom1⟩ := by
    rw [hu] at *
    exact runFanout_someness (fanoutNames.map (fun n => (n, env n))) initApiUsage
  have hstats1 : (getVideoMetadata opts st cache now url env).stats.apiUsage =
      (runFanout st.apiUsage (fanoutNames.map (fun n => (n, env n)))).1 := by
    cases hsel : selectBestQuality opts.preferredQuality
        ((runFanout st.apiUsage (fanoutNames.map (fun n => (n, env n)))).2.1) with
    | none => simp only [getVideoMetadata, hmiss, hsel]
    | some best => simp only [getVideoMetadata, hmiss, hsel]
  refine ⟨hcache1, hinv1, by rw [hinv1]; decide, ?_⟩
  have hstats1' : (getVideoMetadata opts st cache now url env).stats.apiUsage =
      some u1 := by
    rw [hstats1, hu]
    exact hu1
  have hfinal : ∀ m : ResolveOutcome, m.stats.apiUsage = some u1 →
      (getVideoMetadata opts m.stats m.cache now2 url env2).invoked =
        ["snaptik", "tikwm", "tikdown", "savett", "ssstik", "dlpanda"] := by
    intro m hm
    cases hsel2 : selectBestQuality opts.preferredQuality
        ((runFanout m.stats.apiUsage
          (fanoutNames.map (fun n => (n, env2 n)))).2.1) with
    | none =>
      simp only [getVideoMetadata, hmiss, hsel2]
      rw [hm, runFanout_invoked]
      rw [List.filter_congr (fun p _ => by rw [hdom1 p.1])]
      simp [fanoutNames, initApiUsage, apiNames]
    | some best =>
      simp only [getVideoMetadata, hmiss, hsel2]
      rw [hm, runFanout_invoked]
      rw [List.filter_congr (fun p _ => by rw [hdom1 p.1])]
      simp [fanoutNames, initApiUsage, apiNames]
  exact hfinal (getVideoMetadata opts st cache now url env) hstats1'

/-- Demo configuration with caching disabled. -/
def demoOptsNoCache : EngineOptions := ⟨3, .high, false, 3600000⟩

/-- C8 witness: with caching off, two consecutive resolutions of the same
reference both run the fan-out over the six registered adapters, the cache
map is never changed — and neither resolution invokes `webscraping`. -/
theorem cache_disabled_always_misses_witness :
    demoOptsNoCache.cacheResults = false ∧
    (initStats 0).apiUsage = some initApiUsage ∧
    ((getVideoMetadata demoOptsNoCache (initStats 0) demoCache 100
        "https://r" demoEnv).cache = demoCache ∧
    (getVideoMetadata demoOptsNoCache (initStats 0) demoCache 100
        "https://r" demoEnv).invoked =
      ["snaptik", "tikwm", "tikdown", "savett", "ssstik", "dlpanda"] ∧
    "webscraping" ∉ (getVideoMetadata demoOptsNoCache (initStats 0)
        demoCache 100 "https://r" demoEnv).invoked ∧
    (getVideoMetadata demoOptsNoCache
      (getVideoMetadata demoOptsNoCache (initStats 0) demoCache 100
        "https://r" demoEnv).stats
      (getVideoMetadata demoOptsNoCache (initStats 0) demoCache 100
        "https://r" demoEnv).cache 200 "https://r" demoEnv).invoked =
      ["snaptik", "tikwm", "tikdown", "savett", "ssstik", "dlpanda"]) :=
  ⟨rfl, rfl,
    cache_disabled_always_misses demoOptsNoCache (initStats 0) demoCache
      100 200 "https://r" demoEnv demoEnv rfl rfl⟩

/-! ## C7 — resetStats, and C9 — zero-denominator statistics -/

/-- C7: the claim fails on the code.  `resetStats` replaces the stats
object with one holding ONLY the four download counters: the per-provider
registry, the error log, the cache-save counter, the start time and the
total size are dropped (`undefined`), not cleared to zero/empty.  After
it runs, `getDetailedStats` faults (`TypeError` at `errors.slice`), every
fan-out unit faults on `apiUsage[name]` and rejects without invoking its
adapter or recording anything, and the `success` event handler faults —
so subsequent statistics operations do NOT continue to work. -/
theorem resetStats_drops_fields (s : Stats) (now : Int)
    (name api : String) (outcome : UnitOutcome) (d : ℚ) :
    getDetailedStats (resetStats s) now = none ∧
    (resetStats s).apiUsage = none ∧
    (resetStats s).errors = none ∧
    (resetStats s).cacheSaves = none ∧
    (resetStats s).startTime = none ∧
    (resetStats s).totalSize = none ∧
    fanoutUnit (resetStats s).apiUsage name outcome = (none, none, false) ∧
    successHandler (resetStats s) api d = none :=
  ⟨rfl, rfl, rfl, rfl, rfl, rfl, rfl, rfl⟩

/-- C9: in every state with the constructor's shape (error log present)
where no download has been recorded (`totalDownloads = 0`), `getStats`
and `getDetailedStats` return defined values, with the success-rate and
cache-efficiency ratios reporting the non-finite sentinel (`NaN`,
modelled `none`) instead of faulting on the zero denominator. -/
theorem zero_downloads_stats_defined (st : Stats) (now : Int)
    (errs : List ErrorEntry)
    (h0 : st.totalDownloads = 0) (herr : st.errors = some errs) :
    (getStats st).successRate = none ∧
    ∃ v, getDetailedStats st now = some v ∧
      v.successRate = none ∧ v.cacheEfficiency = none := by
  refine ⟨by simp [getStats, h0], ?_⟩
  refine ⟨⟨st, st.startTime.map (fun t0 => now - t0), none,
    jsRound st.averageSpeed, none, st.apiUsage,
    errs.drop (errs.length - 5)⟩, ?_, rfl, rfl⟩
  cases hcs : st.cacheSaves <;>
    simp [getDetailedStats, herr, h0, hcs]

/-- C9 witness: the freshly constructed engine (no downloads yet). -/
theorem zero_downloads_stats_defined_witness :
    (initStats 0).totalDownloads = 0 ∧
    (initStats 0).errors = some [] ∧
    ((getStats (initStats 0)).successRate = none ∧
    ∃ v, getDetailedStats (initStats 0) 5 = some v ∧
      v.successRate = none ∧ v.cacheEfficiency = none) :=
  ⟨rfl, rfl, zero_downloads_stats_defined (initStats 0) 5 [] rfl rfl⟩

/-! ## C10 — the `success` event handler double-counts -/

/-- C10: whenever `downloadVideo` succeeds with a winner from provider `P`
whose name has a registered metrics entry, the `success` event handler
increments `P`'s success counter once more ON TOP of whatever the
fan-out recorded (`successes` goes from `pst.successes` to
`pst.successes + 1` relative to the post-metadata registry `pst`), and
re-folds the whole-call duration `D` into `P`'s mean response time, while
leaving `P`'s call counter untouched; and on a cache hit (no adapter
invoked) the metadata step leaves the registry exactly as it was before
the call, so the handler's increment comes with no call-count increment
and `P`'s success count can exceed its call count. -/
theorem success_event_double_counts (opts : EngineOptions) (st : Stats)
    (cache : Cache) (now : Int) (url : String) (env : String → UnitOutcome)
    (D : ℚ) (c : Candidate) (pst : ProviderStats)
    (hres : (getVideoMetadata opts
      { st with totalDownloads := st.totalDownloads + 1 } cache now url
        env).result = some c)
    (hurl : ¬ (c.videoUrl = ""))
    (hreg : ((getVideoMetadata opts
      { st with totalDownloads := st.totalDownloads + 1 } cache now url
        env).stats.apiUsage.bind (fun u => u c.source)) = some pst) :
    ((downloadVideo opts st cache now url env D).map
      (fun out => out.stats.apiUsage.bind (fun u' => u' c.source))) =
      some (some ⟨pst.calls, pst.successes + 1, pst.failures,
        (pst.averageResponseTime * ((pst.successes + 1 : ℚ) - 1) + D) /
          ((pst.successes + 1 : ℚ))⟩) ∧
      ((getVideoMetadata opts
          { st with totalDownloads := st.totalDownloads + 1 } cache now url
            env).invoked = [] →
        (getVideoMetadata opts
          { st with totalDownloads := st.totalDownloads + 1 } cache now url
            env).stats.apiUsage = st.apiUsage) := by
  obtain ⟨u, hu, hus⟩ : ∃ u, (getVideoMetadata opts
      { st with totalDownloads := st.totalDownloads + 1 } cache now url
        env).stats.apiUsage = some u ∧ u c.source = some pst := by
    cases ha : (getVideoMetadata opts
        { st with totalDownloads := st.totalDownloads + 1 } cache now url
          env).stats.apiUsage with
    | none => rw [ha] at hreg; simp at hreg
    | some u => rw [ha] at hreg; exact ⟨u, rfl, by simpa using hreg⟩
  have hpres : (getVideoMetadata opts
      { st with totalDownloads := st.totalDownloads + 1 } cache now url
        env).invoked = [] →
      (getVideoMetadata opts
        { st with totalDownloads := st.totalDownloads + 1 } cache now url
          env).stats.apiUsage = st.apiUsage := by
    cases hl : cacheLookup opts cache now url with
    | some data =>
      intro _
      simp only [getVideoMetadata, hl]
    | none =>
      cases hsel : selectBestQuality opts.preferredQuality
          ((runFanout ({ st with totalDownloads :=
            st.totalDownloads + 1 } : Stats).apiUsage
            (fanoutNames.map (fun n => (n, env n)))).2.1) with
      | none =>
        intro hinv
        simp only [getVideoMetadata, hl, hsel] at hinv ⊢
        exact runFanout_no_invoke_no_update _ _ hinv
      | some best =>
        intro hinv
        simp only [getVideoMetadata, hl, hsel] at hinv ⊢
        exact runFanout_no_invoke_no_update _ _ hinv
  refine ⟨?_, hpres⟩
  simp only [downloadVideo, hres, if_neg hurl, successHandler, hu, hus]
  simp [updateFn]

/-- A stats state as left behind by one earlier successful resolution via
`snaptik`: 1 call, 2 recorded successes (fan-out + event handler). -/
def demoStatsHit : Stats :=
  { initStats 0 with
    apiUsage := some (fun n =>
      if n = "snaptik" then some ⟨1, 2, 0, 10⟩ else initApiUsage n) }

/-- C10 witness: a `downloadVideo` call that is served from the cache
(entry for `"https://r"`, age 100 ms) still fires the `success` handler,
pushing `snaptik` to 3 successes against 1 call — successes exceed
calls. -/
theorem success_event_double_counts_witness :
    (getVideoMetadata demoOpts
      { demoStatsHit with totalDownloads := demoStatsHit.totalDownloads + 1 }
      demoCache 100 "https://r" demoEnv).result = some snapCand ∧
    ¬ (snapCand.videoUrl = "") ∧
    ((getVideoMetadata demoOpts
      { demoStatsHit with totalDownloads := demoStatsHit.totalDownloads + 1 }
      demoCache 100 "https://r" demoEnv).stats.apiUsage.bind
        (fun u => u snapCand.source)) =
      some (⟨1, 2, 0, 10⟩ : ProviderStats) ∧
    ((downloadVideo demoOpts demoStatsHit demoCache 100 "https://r" demoEnv
        7).map (fun out => out.stats.apiUsage.bind
          (fun u' => u' snapCand.source))) =
      some (some ⟨(⟨1, 2, 0, 10⟩ : ProviderStats).calls,
        (⟨1, 2, 0, 10⟩ : ProviderStats).successes + 1,
        (⟨1, 2, 0, 10⟩ : ProviderStats).failures,
        ((⟨1, 2, 0, 10⟩ : ProviderStats).averageResponseTime *
          (((⟨1, 2, 0, 10⟩ : ProviderStats).successes + 1 : ℚ) - 1) + 7) /
          (((⟨1, 2, 0, 10⟩ : ProviderStats).successes + 1 : ℚ))⟩) ∧
    ((getVideoMetadata demoOpts
      { demoStatsHit with totalDownloads := demoStatsHit.totalDownloads + 1 }
      demoCache 100 "https://r" demoEnv).invoked = [] →
      (getVideoMetadata demoOpts
        { demoStatsHit with
          totalDownloads := demoStatsHit.totalDownloads + 1 }
        demoCache 100 "https://r" demoEnv).stats.apiUsage =
        demoStatsHit.apiUsage) ∧
    (∀ ps : ProviderStats,
      ((downloadVideo demoOpts demoStatsHit demoCache 100 "https://r"
        demoEnv 7).map (fun out => out.stats.apiUsage.bind
          (fun u' => u' snapCand.source))) = some (some ps) →
      ps.calls < ps.successes) := by
  have h := success_event_double_counts demoOpts demoStatsHit demoCache 100
    "https://r" demoEnv 7 snapCand ⟨1, 2, 0, 10⟩ (by decide) (by decide)
    (by decide)
  refine ⟨by decide, by decide, by decide, h.1, h.2, ?_⟩
  intro ps hps
  rw [h.1] at hps
  have : (⟨(⟨1, 2, 0, 10⟩ : ProviderStats).calls,
      (⟨1, 2, 0, 10⟩ : ProviderStats).successes + 1,
      (⟨1, 2, 0, 10⟩ : ProviderStats).failures,
      ((⟨1, 2, 0, 10⟩ : ProviderStats).averageResponseTime *
        (((⟨1, 2, 0, 10⟩ : ProviderStats).successes + 1 : ℚ) - 1) + 7) /
        (((⟨1, 2, 0, 10⟩ : ProviderStats).successes + 1 : ℚ))⟩ :
        ProviderStats) = ps := by
    simpa using hps
  rw [← this]
  decide
